import Mathlib

/-!
Verification of the ai-travel-planner backend core services against their
natural-language specification.

The Python sources under backend/app/services are shallowly embedded here:
strings are lists of characters, the `re` regular-expression calls are run by
a small backtracking engine matching the leftmost-search semantics of Python
(ordered alternation, greedy and lazy repetition, one capturing group, word
boundaries, end anchor, the IGNORECASE flag folded into character classes),
and the external services (language model, embedding service, vector index)
are oracle functions returning `Except`.  Python exceptions are modelled by
`Except String`.
-/

namespace TravelPlanner

/-! ## String utilities (Python `str` operations on `List Char`) -/

/-- Python `needle in haystack` : contiguous substring test. -/
def hasSubstr (ned : List Char) : List Char → Bool
  | [] => ned.isEmpty
  | c :: t => ned.isPrefixOf (c :: t) || hasSubstr ned t

/-- Python `str.lower` (ASCII, which covers all texts in the program). -/
def lcLower (l : List Char) : List Char := l.map Char.toLower

/-- Python `str.upper` (ASCII). -/
def lcUpper (l : List Char) : List Char := l.map Char.toUpper

/-- Python `str.strip()`. -/
def trimWs (l : List Char) : List Char :=
  ((l.dropWhile Char.isWhitespace).reverse.dropWhile Char.isWhitespace).reverse

/-- Python `sep.join(parts)`. -/
def joinSep (sep : List Char) : List (List Char) → List Char
  | [] => []
  | [x] => x
  | x :: y :: ys => x ++ sep ++ joinSep sep (y :: ys)

/-- Helper for `splitWs`, accumulating the current word reversed. -/
def splitWsAux (cur : List Char) : List Char → List (List Char)
  | [] => if cur.isEmpty then [] else [cur.reverse]
  | c :: t =>
    if c.isWhitespace then
      if cur.isEmpty then splitWsAux [] t else cur.reverse :: splitWsAux [] t
    else splitWsAux (c :: cur) t

/-- Python `str.split()` with no argument: split on whitespace runs, no empty parts. -/
def splitWs (l : List Char) : List (List Char) := splitWsAux [] l

/-- Worker for `replaceAll`: the fuel argument only makes the recursion
structural; it starts at `length + 1` and each step removes at least one
character, so it never runs out. -/
def replaceAllFuel (pat repl : List Char) : Nat → List Char → List Char
  | 0, l => l
  | _, [] => []
  | fuel + 1, c :: t =>
    if pat.isPrefixOf (c :: t) then
      repl ++ replaceAllFuel pat repl fuel (t.drop (pat.length - 1))
    else
      c :: replaceAllFuel pat repl fuel t

/-- Python `str.replace(pat, repl)` for a nonempty `pat`: leftmost,
non-overlapping.  (The program never calls `replace` with an empty pattern.) -/
def replaceAll (pat repl : List Char) (l : List Char) : List Char :=
  replaceAllFuel pat repl (l.length + 1) l

/-- Numeric value of a digit list (most significant first). -/
def digitsVal (l : List Char) : Nat := l.foldl (fun a c => a * 10 + (c.toNat - 48)) 0

/-- Python `int(s)` restricted to the shapes produced by the extraction code:
digit-only strings succeed, anything else (in particular the empty string)
raises `ValueError`, modelled as `none`. -/
def pyInt (l : List Char) : Option Nat :=
  if l.isEmpty || l.any (fun c => !c.isDigit) then none else some (digitsVal l)

/-- Worker for `chunks3`; the fuel only makes the recursion structural. -/
def chunks3Fuel : Nat → List Char → List (List Char)
  | 0, _ => []
  | _, [] => []
  | fuel + 1, c :: t => (c :: t.take 2) :: chunks3Fuel fuel (t.drop 2)

/-- Split a reversed digit list into blocks of three (for comma grouping). -/
def chunks3 (l : List Char) : List (List Char) := chunks3Fuel (l.length + 1) l

/-- Python format specifier `:,` on a natural number, e.g. 2000 to "2,000". -/
def fmtComma (n : Nat) : List Char :=
  (joinSep [','] (chunks3 (toString n).data.reverse)).reverse

/-- Helper for `pyTitle`: tracks whether the previous character was alphabetic. -/
def pyTitleAux (prevAlpha : Bool) : List Char → List Char
  | [] => []
  | c :: t =>
    if c.isAlpha then
      (if prevAlpha then c.toLower else c.toUpper) :: pyTitleAux true t
    else
      c :: pyTitleAux false t

/-- Python `str.title()` (ASCII): uppercase every letter that follows a
non-letter, lowercase the other letters. -/
def pyTitle (l : List Char) : List Char := pyTitleAux false l

/-! ## A small regular-expression engine

Backtracking matcher with the Python `re` semantics used by the extractor:
ordered alternation, greedy `*`, `+` and `?`, lazy `*?`, one capturing group,
`\b`, `$`, and classes.  `re.IGNORECASE` is folded into the character classes
when a pattern is built.  The engine is run with enough fuel that every
repetition node can unfold once per remaining character. -/

inductive RE : Type where
  | eps : RE
  | cls : (Char → Bool) → RE
  | seq : RE → RE → RE
  | alt : RE → RE → RE
  | star : RE → RE
  | lazyStar : RE → RE
  | opt : RE → RE
  | grp : RE → RE
  | eos : RE
  | wordB : RE

/-- Python `\w` (ASCII). -/
def isWordChar (c : Char) : Bool := c.isAlphanum || c = '_'

/-- CPS backtracking matcher.  `prev` is the character just before the current
position (for `\b`), `g1` the capture of group 1 so far.  The continuation
receives the state after the node; `none` means the whole attempt failed and
the caller backtracks.  The fuel decreases on every structural descent and on
every repetition unfolding; `fuelFor` below sizes it so that it can never run
out on a search. -/
def matchRe : Nat → RE → Option Char → List Char → Option (List Char) →
    (Option Char → List Char → Option (List Char) → Option (Option (List Char))) →
    Option (Option (List Char))
  | 0, _, _, _, _, _ => none
  | fuel + 1, re, prev, s, g1, k =>
    match re with
    | .eps => k prev s g1
    | .cls p =>
      match s with
      | [] => none
      | c :: t => if p c then k (some c) t g1 else none
    | .seq a b => matchRe fuel a prev s g1 (fun p2 s2 g2 => matchRe fuel b p2 s2 g2 k)
    | .alt a b =>
      match matchRe fuel a prev s g1 k with
      | some r => some r
      | none => matchRe fuel b prev s g1 k
    | .star a =>
      match matchRe fuel a prev s g1
          (fun p2 s2 g2 => matchRe fuel (.star a) p2 s2 g2 k) with
      | some r => some r
      | none => k prev s g1
    | .lazyStar a =>
      match k prev s g1 with
      | some r => some r
      | none =>
        matchRe fuel a prev s g1 (fun p2 s2 g2 => matchRe fuel (.lazyStar a) p2 s2 g2 k)
    | .opt a =>
      match matchRe fuel a prev s g1 k with
      | some r => some r
      | none => k prev s g1
    | .grp a =>
      matchRe fuel a prev s g1 (fun p2 s2 _ => k p2 s2 (some (s.take (s.length - s2.length))))
    | .eos =>
      match s with
      | [] => k prev s g1
      | _ :: _ => none
    | .wordB =>
      let wl := match prev with | some c => isWordChar c | none => false
      let wr := match s with | c :: _ => isWordChar c | [] => false
      if wl != wr then k prev s g1 else none

/-- Number of nodes of a pattern, used to size the fuel. -/
def reSize : RE → Nat
  | .eps | .cls _ | .eos | .wordB => 1
  | .seq a b | .alt a b => reSize a + reSize b + 1
  | .star a | .lazyStar a | .opt a | .grp a => reSize a + 1

/-- Fuel bounding the nesting depth of any match attempt: the pattern can be
traversed once per remaining character (repetition bodies always consume at
least one character in the patterns of this program). -/
def fuelFor (re : RE) (s : List Char) : Nat := (reSize re + 2) * (s.length + 2)

/-- Leftmost search: try a match at each position, left to right
(Python `re.search`).  The result is `none` when there is no match, and
`some g1` on a match, where `g1` is the group-1 capture (or `none` when the
pattern has no capturing group). -/
def searchFrom (re : RE) (prev : Option Char) (s : List Char) :
    Option (Option (List Char)) :=
  match matchRe (fuelFor re s) re prev s none (fun _ _ g2 => some g2) with
  | some g => some g
  | none =>
    match s with
    | [] => none
    | c :: t => searchFrom re (some c) t

/-- Python `re.search(pattern, text)`. -/
def reSearch (re : RE) (s : List Char) : Option (Option (List Char)) :=
  searchFrom re none s

/-! ### Pattern construction helpers -/

/-- Case-sensitive literal. -/
def rLit (s : String) : RE :=
  s.data.foldr (fun c acc => RE.seq (RE.cls (fun x => x = c)) acc) RE.eps

/-- Case-insensitive literal (a literal under `re.IGNORECASE`). -/
def rLitI (s : String) : RE :=
  s.data.foldr (fun c acc => RE.seq (RE.cls (fun x => x.toLower = c.toLower)) acc) RE.eps

/-- Ordered alternation over a nonempty list (Python `a|b|c`). -/
def rAlt : List RE → RE
  | [] => RE.cls (fun _ => false)
  | [x] => x
  | x :: y :: ys => RE.alt x (rAlt (y :: ys))

/-- Sequence of nodes. -/
def rSeq : List RE → RE
  | [] => RE.eps
  | [x] => x
  | x :: y :: ys => RE.seq x (rSeq (y :: ys))

/-- Greedy `+`. -/
def rPlus (r : RE) : RE := RE.seq r (RE.star r)

/-- `\s` (ASCII whitespace, which covers the texts in the program). -/
def wsC : RE := RE.cls Char.isWhitespace

/-- `\s+`. -/
def wsPlus : RE := rPlus wsC

/-- `\s*`. -/
def wsStar : RE := RE.star wsC

/-- `\d`. -/
def digitC : RE := RE.cls Char.isDigit

/-- `[\d,]`. -/
def digitCommaC : RE := RE.cls (fun c => c.isDigit || c = ',')

/-- `.` (anything but a newline). -/
def dotC : RE := RE.cls (fun c => c != '\n')

/-- `[A-Z]` under `re.IGNORECASE` (ASCII): any letter. -/
def alphaC : RE := RE.cls Char.isAlpha

/-! ## Data model -/

/-- A conversation message: a dict with a `role` key and a text `content` key. -/
structure Msg where
  role : String
  content : String
deriving DecidableEq

/-- The extracted conversation context.  A Python dict whose keys are set only
when extraction found a (truthy) value; a `none` field is an absent key. -/
structure Ctx where
  destination : Option String
  duration_days : Option Nat
  budget : Option Nat
  interests : Option (List String)
  travel_style : Option String
deriving DecidableEq

/-- The empty context dict. -/
def emptyCtx : Ctx := ⟨none, none, none, none, none⟩

/-- Python `bool(context)` for a context dict: at least one key present. -/
def ctxTruthy (c : Ctx) : Bool :=
  c.destination.isSome || c.duration_days.isSome || c.budget.isSome ||
    c.interests.isSome || c.travel_style.isSome

/-- Python dict merge for two contexts: keys of the second
operand win (`updated_context = dict(conversation_context, **extracted)`). -/
def mergeCtx (old new : Ctx) : Ctx where
  destination := new.destination.or old.destination
  duration_days := new.duration_days.or old.duration_days
  budget := new.budget.or old.budget
  interests := new.interests.or old.interests
  travel_style := new.travel_style.or old.travel_style

/-! ## ContextExtractor (services/context/extractor.py) -/

/-- `ContextExtractor.KNOWN_CITIES`, in the order the set literal lists them.
(Python set iteration order is unspecified; only the by-length sort below is
observable, and no two same-length cities ever both match a theorem input.) -/
def KNOWN_CITIES : List String :=
  ["paris", "london", "rome", "barcelona", "amsterdam", "prague", "vienna",
   "berlin", "munich", "venice", "florence", "athens", "dublin", "edinburgh",
   "lisbon", "madrid", "copenhagen", "stockholm", "budapest", "krakow",
   "tokyo", "bangkok", "singapore", "hong kong", "seoul", "dubai", "bali",
   "kyoto", "shanghai", "beijing", "taipei", "hanoi", "ho chi minh city",
   "kuala lumpur", "manila", "istanbul", "jerusalem", "tel aviv", "mumbai",
   "new york", "los angeles", "san francisco", "miami", "las vegas",
   "mexico city", "cancun", "rio de janeiro", "buenos aires", "vancouver",
   "toronto", "montreal", "chicago", "boston", "seattle", "washington",
   "sydney", "melbourne", "auckland", "cairo", "cape town", "marrakech"]

/-- Stable descending-by-length insertion (for `sorted(key=len, reverse=True)`). -/
def insertByLen (x : String) : List String → List String
  | [] => [x]
  | y :: ys => if y.length < x.length then x :: y :: ys else y :: insertByLen x ys

/-- Python `sorted(cities, key=len, reverse=True)` (stable). -/
def sortByLenDesc (l : List String) : List String := l.foldr insertByLen []

/-- `ContextExtractor._capitalize_city` special cases. -/
def special_cases : List (String × String) :=
  [("new york", "New York"), ("los angeles", "Los Angeles"),
   ("san francisco", "San Francisco"), ("las vegas", "Las Vegas"),
   ("hong kong", "Hong Kong"), ("ho chi minh city", "Ho Chi Minh City"),
   ("kuala lumpur", "Kuala Lumpur"), ("mexico city", "Mexico City"),
   ("rio de janeiro", "Rio de Janeiro"), ("buenos aires", "Buenos Aires"),
   ("cape town", "Cape Town"), ("tel aviv", "Tel Aviv")]

/-- `ContextExtractor._capitalize_city`. -/
def capitalize_city (city : List Char) : List Char :=
  let city_lower := lcLower city
  match special_cases.find? (fun p => p.1.data == city_lower) with
  | some p => p.2.data
  | none => pyTitle city

/-- `ContextExtractor._is_valid_destination` stop words. -/
def stop_words : List String :=
  ["the", "a", "an", "and", "or", "for", "with", "about",
   "june", "july", "august", "september", "october", "november",
   "december", "january", "february", "march", "april", "may",
   "days", "weeks", "months", "day", "week", "month",
   "trip", "vacation", "holiday", "travel", "visit"]

/-- `ContextExtractor._is_valid_destination`. -/
def is_valid_destination (destination : List Char) : Bool :=
  if destination.isEmpty || destination.length < 3 then false
  else if stop_words.any (fun w => w.data == lcLower destination) then false
  else if KNOWN_CITIES.any (fun w => w.data == lcLower destination) then true
  else
    match destination with
    | c :: _ => c.isUpper
    | [] => false

/-- The shared capture of the destination patterns, under `re.IGNORECASE`:
one capitalized-looking word, then any further ones separated by whitespace. -/
def capDest : RE :=
  RE.grp (rSeq [alphaC, rPlus alphaC, RE.star (rSeq [wsPlus, alphaC, rPlus alphaC])])

/-- `ContextExtractor._extract_with_verbs` patterns, source order, IGNORECASE. -/
def verb_patterns : List RE :=
  [rSeq [rAlt [rLitI "visit", rLitI "visiting", rLitI "visited"], wsPlus, capDest],
   rSeq [rAlt [rLitI "go", rLitI "going", rLitI "went"], wsPlus, rLitI "to", wsPlus, capDest],
   rSeq [rAlt [rLitI "travel", rLitI "traveling", rLitI "travelled"], wsPlus, rLitI "to",
     wsPlus, capDest],
   rSeq [rAlt [rLitI "trip", rLitI "vacation", rLitI "holiday"], wsPlus,
     rAlt [rLitI "to", rLitI "in"], wsPlus, capDest],
   rSeq [rAlt [rLitI "plan", rLitI "planning", rLitI "planned"], wsPlus,
     RE.opt (rSeq [rLitI "a", wsPlus]), rAlt [rLitI "trip", rLitI "visit"], wsPlus,
     rLitI "to", wsPlus, capDest],
   rSeq [rAlt [rLitI "plan", rLitI "planning", rLitI "planned"], wsPlus, rLitI "to", wsPlus,
     rAlt [rLitI "visit", rSeq [rLitI "go", wsPlus, rLitI "to"],
       rSeq [rLitI "travel", wsPlus, rLitI "to"]], wsPlus, capDest],
   rSeq [rAlt [rLitI "want", rLitI "wanting", rLitI "wanted"], wsPlus, rLitI "to", wsPlus,
     rAlt [rLitI "visit", rLitI "see", rLitI "explore",
       rSeq [rLitI "go", wsPlus, rLitI "to"]], wsPlus, capDest],
   rSeq [rAlt [rLitI "explore", rLitI "exploring", rLitI "explored"], wsPlus, capDest],
   rSeq [rAlt [rLitI "see", rLitI "seeing", rLitI "saw"], wsPlus, capDest],
   rSeq [rAlt [rLitI "destination", rLitI "headed", rLitI "heading"], wsPlus,
     rAlt [rLitI "is", rLitI "to", rLitI "for"], wsPlus, capDest],
   rSeq [rAlt [rLitI "fly", rLitI "flying", rLitI "flew"], wsPlus, rLitI "to", wsPlus, capDest]]

/-- Loop body shared by the two destination strategies that use a captured
group: on a match, strip, capitalize and validate; on an invalid candidate,
fall through to the next pattern. -/
def destFromPatterns : List RE → List Char → Option String
  | [], _ => none
  | p :: ps, text =>
    match reSearch p text with
    | some (some g) =>
      let destination := capitalize_city (trimWs g)
      if is_valid_destination destination then some (String.mk destination)
      else destFromPatterns ps text
    | _ => destFromPatterns ps text

/-- `ContextExtractor._extract_with_verbs`. -/
def extract_with_verbs (text : List Char) : Option String :=
  destFromPatterns verb_patterns text

/-- `ContextExtractor._extract_with_prepositions` patterns, IGNORECASE. -/
def prep_patterns : List RE :=
  [rSeq [rAlt [rLitI "in", rLitI "at"], wsPlus, capDest, wsPlus,
     rAlt [rLitI "for", rLitI "during", rLitI "with", rLitI "and", rLitI "or",
       rLit ",", rLit ".", rLit "?", rLit "!", RE.eos]],
   rSeq [rAlt [rLitI "to", rLitI "from"], wsPlus, capDest, wsPlus,
     rAlt [rLitI "for", rLitI "and", rLitI "or",
       rLit ",", rLit ".", rLit "?", rLit "!", RE.eos]]]

/-- `ContextExtractor._extract_with_prepositions`. -/
def extract_with_prepositions (text : List Char) : Option String :=
  destFromPatterns prep_patterns text

/-- The word-boundary-delimited pattern for one known city. -/
def cityPattern (city : String) : RE := rSeq [RE.wordB, rLit city, RE.wordB]

/-- Loop of `ContextExtractor._extract_known_cities` over the sorted cities. -/
def citiesLoop : List String → List Char → Option String
  | [], _ => none
  | c :: cs, text_lower =>
    if (reSearch (cityPattern c) text_lower).isSome then
      some (String.mk (capitalize_city c.data))
    else citiesLoop cs text_lower

/-- `ContextExtractor._extract_known_cities`. -/
def extract_known_cities (text : List Char) : Option String :=
  citiesLoop (sortByLenDesc KNOWN_CITIES) (lcLower text)

/-- `ContextExtractor._extract_destination`: verbs, then prepositions, then
known cities. -/
def extract_destination (messages : List (List Char)) : Option String :=
  let full_text := joinSep [' '] messages
  match extract_with_verbs full_text with
  | some d => some d
  | none =>
    match extract_with_prepositions full_text with
    | some d => some d
    | none => extract_known_cities full_text

/-- `ContextExtractor._extract_duration` word table. -/
def word_to_num : List (String × Nat) :=
  [("one", 1), ("two", 2), ("three", 3), ("four", 4), ("five", 5),
   ("six", 6), ("seven", 7), ("eight", 8), ("nine", 9), ("ten", 10)]

/-- Duration patterns paired with their Python source text (the source text is
itself tested for the substrings "week" and "weeks?" by the loop). -/
def duration_patterns : List (String × RE) :=
  [("(?:for\\s+)?(\\d+)\\s*days?(?:\\s+trip)?",
    rSeq [RE.opt (rSeq [rLit "for", wsPlus]), RE.grp (rPlus digitC), wsStar,
      rLit "day", RE.opt (rLit "s"), RE.opt (rSeq [wsPlus, rLit "trip"])]),
   ("(\\d+)-day",
    rSeq [RE.grp (rPlus digitC), rLit "-day"]),
   ("(?:for\\s+)?(one|two|three|four|five|six|seven|eight|nine|ten)\\s*days?",
    rSeq [RE.opt (rSeq [rLit "for", wsPlus]),
      RE.grp (rAlt [rLit "one", rLit "two", rLit "three", rLit "four", rLit "five",
        rLit "six", rLit "seven", rLit "eight", rLit "nine", rLit "ten"]),
      wsStar, rLit "day", RE.opt (rLit "s")]),
   ("(?:for\\s+)?a\\s+week(?:\\s+trip)?",
    rSeq [RE.opt (rSeq [rLit "for", wsPlus]), rLit "a", wsPlus, rLit "week",
      RE.opt (rSeq [wsPlus, rLit "trip"])]),
   ("(?:for\\s+)?(\\d+)\\s*weeks?",
    rSeq [RE.opt (rSeq [rLit "for", wsPlus]), RE.grp (rPlus digitC), wsStar,
      rLit "week", RE.opt (rLit "s")])]

/-- The message of the Python `TypeError` raised by `None >= 1`. -/
def lastindexTypeError : String :=
  "TypeError: unsupported comparison between NoneType and int"

/-- Loop of `ContextExtractor._extract_duration`.  The line
`value = match.group(1) if match.lastindex >= 1 else None` raises a
`TypeError` whenever the matched pattern has no capturing group, because
`match.lastindex` is then `None`. -/
def durationLoop : List (String × RE) → List Char → Except String (Option Nat)
  | [], _ => Except.ok none
  | (src, p) :: ps, text =>
    match reSearch p text with
    | none => durationLoop ps text
    | some g1 =>
      match g1 with
      | none => Except.error lastindexTypeError
      | some v =>
        if hasSubstr "week".data src.data && v.isEmpty then Except.ok (some 7)
        else if hasSubstr "weeks?".data src.data && !v.isEmpty && v.all Char.isDigit then
          Except.ok (some (digitsVal v * 7))
        else if !v.isEmpty then
          if v.all Char.isDigit then Except.ok (some (digitsVal v))
          else
            match word_to_num.find? (fun q => q.1.data == v) with
            | some q => Except.ok (some q.2)
            | none => durationLoop ps text
        else durationLoop ps text

/-- `ContextExtractor._extract_duration`. -/
def extract_duration (text : List Char) : Except String (Option Nat) :=
  durationLoop duration_patterns text

/-- `ContextExtractor._extract_budget` context guard words. -/
def budget_indicators : List String :=
  ["budget", "spend", "cost", "price", "afford",
   "expensive", "cheap", "dollar", "euro", "$", "€"]

/-- `ContextExtractor._extract_budget` patterns, source order.  Every pattern
has one capturing group. -/
def budget_patterns : List RE :=
  [rSeq [rLit "$", wsStar, RE.grp (rPlus digitCommaC)],
   rSeq [RE.grp (rPlus digitCommaC), wsStar, rAlt [rLit "dollars", rLit "usd"]],
   rSeq [RE.grp (rPlus digitCommaC), wsStar, rAlt [rLit "euros", rLit "eur"]],
   rSeq [rLit "budget", RE.lazyStar dotC,
     RE.opt (rAlt [rLit "of", rLit "is", rLit "around"]), wsStar,
     RE.opt (rLit "$"), wsStar, RE.grp (rPlus digitCommaC)],
   rSeq [rLit "spend", RE.lazyStar dotC,
     RE.opt (rAlt [rLit "about", rLit "around"]), wsStar,
     RE.opt (rLit "$"), wsStar, RE.grp (rPlus digitCommaC)]]

/-- Loop of `ContextExtractor._extract_budget`: drop commas, parse, keep only
amounts between 100 and 100000; a `ValueError` or failed sanity check falls
through to the next pattern. -/
def budgetLoop : List RE → List Char → Option Nat
  | [], _ => none
  | p :: ps, text =>
    match reSearch p text with
    | none => budgetLoop ps text
    | some g1 =>
      let budget_str := (g1.getD []).filter (fun c => c != ',')
      match pyInt budget_str with
      | none => budgetLoop ps text
      | some budget =>
        if 100 ≤ budget && budget ≤ 100000 then some budget else budgetLoop ps text

/-- `ContextExtractor._extract_budget`. -/
def extract_budget (text : List Char) : Option Nat :=
  if budget_indicators.any (fun w => hasSubstr w.data text) then
    budgetLoop budget_patterns text
  else none

/-- `ContextExtractor._extract_interests` keyword table, declaration order. -/
def interest_keywords : List (String × List String) :=
  [("museums", ["museum", "museums", "art", "gallery", "galleries"]),
   ("food", ["food", "restaurant", "restaurants", "eating", "cuisine", "dining", "foodie"]),
   ("history", ["history", "historical", "castle", "monument", "heritage"]),
   ("nature", ["nature", "hiking", "park", "parks", "beach", "outdoor"]),
   ("nightlife", ["nightlife", "club", "clubs", "bar", "bars", "party"]),
   ("shopping", ["shopping", "shop", "shops", "mall", "market", "markets"]),
   ("culture", ["culture", "cultural", "local", "traditional"]),
   ("adventure", ["adventure", "activities", "sports"]),
   ("relaxation", ["relax", "spa", "peaceful"]),
   ("architecture", ["architecture", "buildings", "monuments"])]

/-- Loop of `ContextExtractor._extract_interests` over the keyword table. -/
def interestsFrom : List (String × List String) → List Char → List String
  | [], _ => []
  | (interest, keywords) :: rest, text =>
    if keywords.any (fun w => hasSubstr w.data text) then
      interest :: interestsFrom rest text
    else interestsFrom rest text

/-- `ContextExtractor._extract_interests`. -/
def extract_interests (text : List Char) : List String :=
  interestsFrom interest_keywords text

/-- `ContextExtractor._extract_travel_style`. -/
def extract_travel_style (text : List Char) : Option String :=
  if ["budget", "cheap", "affordable", "backpack"].any (fun w => hasSubstr w.data text) then
    some "budget"
  else if ["luxury", "upscale", "premium", "5-star", "high-end"].any
      (fun w => hasSubstr w.data text) then
    some "luxury"
  else if ["mid-range", "moderate", "comfortable"].any (fun w => hasSubstr w.data text) then
    some "mid-range"
  else none

/-- Python truthiness gate on an optional number: `0` is falsy, so
`if duration:` does not set the key for a zero value. -/
def keepTruthyNat : Option Nat → Option Nat
  | some 0 => none
  | d => d

/-- Python truthiness gate on an optional string: `""` is falsy. -/
def keepTruthyStr : Option String → Option String
  | some s => if s.isEmpty then none else some s
  | none => none

/-- `ContextExtractor.extract_context`: destination over the original-case
user messages, everything else over the lowercased join of them; a dict key
is only set when the sub-extractor found a truthy value.  The duration
extractor can raise, and the exception propagates. -/
def extract_context (messages : List Msg) : Except String Ctx := do
  let all_user_messages := (messages.filter (fun m => m.role == "user")).map
    (fun m => m.content.data)
  let user_text_lower := lcLower (joinSep [' '] all_user_messages)
  let destination := extract_destination all_user_messages
  let duration ← extract_duration user_text_lower
  let budget := extract_budget user_text_lower
  let interests := extract_interests user_text_lower
  let travel_style := extract_travel_style user_text_lower
  pure
    { destination := keepTruthyStr destination
      duration_days := keepTruthyNat duration
      budget := keepTruthyNat budget
      interests := if interests.isEmpty then none else some interests
      travel_style := keepTruthyStr travel_style }

/-! ## QueryEnhancer (services/context/query_enhancer.py) -/

/-- `QueryEnhancer._should_add_interests` benefit patterns. -/
def benefit_patterns : List String :=
  ["what should", "what can", "where should", "where can",
   "any suggestions", "what else", "tell me more",
   "things to do", "what to see", "what to do",
   "activities", "attractions", "places to visit",
   "help me plan", "itinerary", "recommendations"]

/-- `QueryEnhancer._should_add_interests` skip patterns. -/
def skip_patterns : List String :=
  ["what time", "how much", "how far", "how long",
   "how to get", "when does", "where is",
   "is it open", "is there", "ticket", "price"]

/-- `QueryEnhancer._should_add_interests` (takes the lowercased query). -/
def should_add_interests (query : List Char) : Bool :=
  if skip_patterns.any (fun p => hasSubstr p.data query) then false
  else if benefit_patterns.any (fun p => hasSubstr p.data query) then true
  else (splitWs query).length ≤ 5

/-- `QueryEnhancer._clean_query`: collapse whitespace, then fix the
punctuation before a trailing clause. -/
def clean_query (query : List Char) : List Char :=
  let q1 := joinSep [' '] (splitWs query)
  let q2 := replaceAll "? in".data " in".data q1
  let q3 := replaceAll "? focusing".data " focusing".data q2
  let q4 := replaceAll ". in".data " in".data q3
  let q5 := replaceAll ". focusing".data " focusing".data q4
  trimWs q5

/-- `QueryEnhancer.enhance_query`.  An empty context dict is falsy, so the
query is returned unchanged. -/
def enhance_query (query : String) (context : Ctx) : String :=
  if !ctxTruthy context then query
  else
    let query_lower := lcLower query.data
    let parts1 : List (List Char) := [query.data]
    let parts2 :=
      match context.destination with
      | some destination =>
        if !hasSubstr (lcLower destination.data) query_lower then
          parts1 ++ [("in " ++ destination).data]
        else parts1
      | none => parts1
    let interests := context.interests.getD []
    let parts3 :=
      if !interests.isEmpty && should_add_interests query_lower then
        parts2 ++ ["focusing on ".data ++
          joinSep " and ".data ((interests.take 2).map String.data)]
      else parts2
    String.mk (clean_query (joinSep [' '] parts3))

/-- `QueryEnhancer.create_contextual_filter`: a metadata filter holding the
destination as the city, or `none` when there are no criteria. -/
def create_contextual_filter (context : Ctx) : Option (List (String × String)) :=
  if !ctxTruthy context then none
  else
    match context.destination with
    | some destination => some [("city", destination)]
    | none => none

/-- `QueryEnhancer.get_context_for_prompt`: duration, budget and travel style
for the system prompt. -/
def get_context_for_prompt (context : Ctx) : String :=
  if !ctxTruthy context then ""
  else
    let parts0 : List (List Char) := []
    let parts1 :=
      match context.duration_days with
      | some duration => parts0 ++ [("Trip duration: " ++ toString duration ++ " days").data]
      | none => parts0
    let parts2 :=
      match context.budget with
      | some budget => parts1 ++ ["Budget: $".data ++ fmtComma budget]
      | none => parts1
    let parts3 :=
      match context.travel_style with
      | some travel_style => parts2 ++ [("Travel style: " ++ travel_style).data]
      | none => parts2
    if parts3.isEmpty then "" else String.mk (joinSep "; ".data parts3)

/-! ## ContextFormatter (services/context/formatter.py) -/

/-- `ContextFormatter.format_context`. -/
def format_context (context : Ctx) : String :=
  let parts0 : List (List Char) := []
  let parts1 :=
    match context.destination with
    | some destination => parts0 ++ [("Destination: " ++ destination).data]
    | none => parts0
  let parts2 :=
    match context.duration_days with
    | some duration => parts1 ++ [("Duration: " ++ toString duration ++ " days").data]
    | none => parts1
  let parts3 :=
    match context.budget with
    | some budget => parts2 ++ ["Budget: $".data ++ fmtComma budget]
    | none => parts2
  let parts4 :=
    match context.interests with
    | some interests => parts3 ++ ["Interests: ".data ++
        joinSep ", ".data (interests.map String.data)]
    | none => parts3
  let parts5 :=
    match context.travel_style with
    | some travel_style => parts4 ++ [("Travel style: " ++ travel_style).data]
    | none => parts4
  String.mk (joinSep "; ".data parts5)

/-! ## ContextManager (services/context/manager.py) -/

/-- The two tuning knobs of `ContextManager`. -/
structure ContextManager where
  window_size : Nat
  summarize_threshold : Nat
deriving DecidableEq

/-- The singleton `context_manager = ContextManager(window_size=10,
summarize_threshold=15)`. -/
def context_manager : ContextManager := ⟨10, 15⟩

/-- The Python slice `xs[-w:]`.  For `w = 0` the slice bound `-0` is `0`, so
the whole list is returned; for `w > 0` it is the last `min (length, w)`
elements. -/
def pyLastSlice {α : Type} (w : Nat) (xs : List α) : List α :=
  if w = 0 then xs else xs.drop (xs.length - w)

/-- Python truthiness of an optional string (`None` and `""` are falsy). -/
def strTruthy : Option String → Bool
  | none => false
  | some s => !s.isEmpty

/-- `ContextManager.get_context_for_ai`: the last `window_size` messages,
plus a description assembled from summary and known facts. -/
def get_context_for_ai (cm : ContextManager) (messages : List Msg)
    (summary : Option String) (context : Ctx) : List Msg × String :=
  let recent_messages := pyLastSlice cm.window_size messages
  let parts0 : List (List Char) := []
  let parts1 :=
    if strTruthy summary then
      parts0 ++ [("Previous conversation summary: " ++ summary.getD "").data]
    else parts0
  let parts2 :=
    if ctxTruthy context then
      let context_str := format_context context
      if !context_str.isEmpty then
        parts1 ++ [("Known information: " ++ context_str).data]
      else parts1
    else parts1
  (recent_messages, String.mk (joinSep "\n\n".data parts2))

/-- `ContextManager.should_summarize`: true iff at least
`summarize_threshold` messages have not been folded into the summary. -/
def should_summarize (cm : ContextManager) (message_count last_summarized_index : Int) :
    Bool :=
  message_count - last_summarized_index ≥ (cm.summarize_threshold : Int)

/-- Python `existing_summary or ""`. -/
def pyOrEmpty : Option String → String
  | none => ""
  | some s => s

/-- Python `existing_summary or "None"` (single-quoted in the source) inside
the summary prompt. -/
def pyOrNoneWord : Option String → String
  | none => "None"
  | some s => if s.isEmpty then "None" else s

/-- The language-model oracle: messages, temperature, max tokens. -/
def ChatOracle : Type := List Msg → ℚ → Nat → Except String String

/-- `ContextManager.create_summary`: below the window nothing is summarized;
otherwise the messages before the window are rendered, the summary prompt is
sent to the language model, and the reply is stripped.  A failing model call
propagates. -/
def create_summary (chat : ChatOracle) (cm : ContextManager) (messages : List Msg)
    (existing_summary : Option String) : Except String String :=
  if messages.length ≤ cm.window_size then Except.ok (pyOrEmpty existing_summary)
  else
    let messages_to_summarize := messages.take (messages.length - cm.window_size)
    let conversation_text := joinSep "\n".data (messages_to_summarize.map
      (fun m => lcUpper m.role.data ++ ": ".data ++ m.content.data))
    let prompt :=
      "Summarize this travel planning conversation into 2-3 concise sentences. Focus on key facts: destination, dates, budget, preferences, and any decisions made.\n\nConversation:\n"
        ++ String.mk conversation_text
        ++ "\n\nPrevious summary (if any):\n" ++ pyOrNoneWord existing_summary
        ++ "\n\nConcise summary:"
    match chat [⟨"user", prompt⟩] (3/10) 200 with
    | Except.ok summary => Except.ok (String.mk (trimWs summary.data))
    | Except.error e => Except.error e

/-! ## RetrievalService (services/rag/retrieval.py) -/

/-- The shape ChromaDB query results come in: one inner list per query
embedding (the service always sends exactly one). -/
structure QueryResults where
  documents : List (List String)
  metadatas : List (List (List (String × String)))
  distances : List (List ℚ)
  ids : List (List String)
deriving DecidableEq

/-- The canonical empty result set. -/
def canonicalEmpty : QueryResults := ⟨[[]], [[]], [[]], [[]]⟩

/-- `RetrievalService._distance_to_similarity`. -/
def distance_to_similarity (distance : ℚ) : ℚ := 1 - distance

/-- `settings.RAG_SIMILARITY_THRESHOLD = 0.4`. -/
def RAG_SIMILARITY_THRESHOLD : ℚ := 2/5

/-- The similarity threshold of the `retrieval_service` singleton. -/
def retrieval_service_threshold : ℚ := RAG_SIMILARITY_THRESHOLD

/-- The loop of `RetrievalService._filter_by_similarity`: walk the distances
in index order, keep entries whose similarity reaches the threshold, stop as
soon as `max_results` entries are kept.  (`documents[i]` is modelled with a
default for out-of-range `i`; the index service returns aligned lists, and
every theorem below carries that alignment.) -/
def simLoop (threshold : ℚ) (max_results : Nat)
    (documents : List String) (metadatas : List (List (String × String)))
    (ids : List String) :
    List ℚ → Nat → Nat →
    List String × List (List (String × String)) × List ℚ × List String
  | [], _, _ => ([], [], [], [])
  | distance :: rest, i, kept =>
    if threshold ≤ distance_to_similarity distance then
      let doc := documents.getD i ""
      let meta := metadatas.getD i []
      let idv := ids.getD i ("doc_" ++ toString i)
      if max_results ≤ kept + 1 then ([doc], [meta], [distance], [idv])
      else
        let r := simLoop threshold max_results documents metadatas ids rest (i + 1) (kept + 1)
        (doc :: r.1, meta :: r.2.1, distance :: r.2.2.1, idv :: r.2.2.2)
    else simLoop threshold max_results documents metadatas ids rest (i + 1) kept

/-- `RetrievalService._filter_by_similarity`. -/
def filter_by_similarity (results : QueryResults) (threshold : ℚ) (max_results : Nat) :
    QueryResults :=
  if results.documents.isEmpty || (results.documents.headD []).isEmpty then canonicalEmpty
  else
    let documents := results.documents.headD []
    let metadatas := results.metadatas.headD []
    let distances := results.distances.headD []
    let ids := results.ids.headD []
    let r := simLoop threshold max_results documents metadatas ids distances 0 0
    ⟨[r.1], [r.2.1], [r.2.2.1], [r.2.2.2]⟩

/-- The external services `process_message` suspends on: the chat model, the
embedding service and the vector index. -/
structure Oracles where
  chat : ChatOracle
  embed : String → Except String (List ℚ)
  vquery : List (List ℚ) → Nat → Option (List (String × String)) →
    Except String QueryResults

/-- `RetrievalService.search`: embed the query, over-fetch `2 * n_results`
candidates, filter by similarity; any exception from the embedding or index
call is caught and turned into the canonical empty result set. -/
def search (o : Oracles) (self_threshold : ℚ) (query : String) (n_results : Nat)
    (filter_metadata : Option (List (String × String))) (threshold_arg : Option ℚ) :
    QueryResults :=
  let threshold := threshold_arg.getD self_threshold
  match o.embed query with
  | Except.error _ => canonicalEmpty
  | Except.ok query_embedding =>
    let query_n := n_results * 2
    match o.vquery [query_embedding] query_n filter_metadata with
    | Except.error _ => canonicalEmpty
    | Except.ok results => filter_by_similarity results threshold n_results

/-! ## ConversationService (services/conversation.py) -/

/-- `settings.OPENAI_TEMPERATURE = 0.7`. -/
def OPENAI_TEMPERATURE : ℚ := 7/10

/-- `settings.OPENAI_MAX_TOKENS = 2000`. -/
def OPENAI_MAX_TOKENS : Nat := 2000

/-- The fixed role and guidelines block of the system prompt. -/
def roleGuidelines : String :=
  "\nYOUR ROLE:\n- Help users plan detailed, personalized travel itineraries\n- Provide specific recommendations for activities, restaurants, and attractions\n- Consider budget constraints, travel dates, and user preferences\n- Ask clarifying questions when needed\n- Be enthusiastic, friendly, and practical\n\nRESPONSE GUIDELINES:\n- Be conversational and warm\n- Give specific names and details, not generic suggestions\n- Include estimated costs when relevant\n- If you need more information, ask specific questions\n- Use the knowledge base and conversation context to give accurate information\n"

/-- `ConversationService._build_system_prompt`.  The trip context dict is
rendered by `json.dumps`; that rendering is abstracted as an uninterpreted
string, which no theorem below inspects. -/
def build_system_prompt (rag_context : String) (context_description : String)
    (trip_context : Option String) (conversation_context : Ctx) : String :=
  let parts1 : List String := ["You are an expert travel planning assistant."]
  let parts2 :=
    if !context_description.isEmpty then
      parts1 ++ ["\nCONVERSATION CONTEXT:\n" ++ context_description]
    else parts1
  let parts3 :=
    if ctxTruthy conversation_context then
      let additional_context := get_context_for_prompt conversation_context
      if !additional_context.isEmpty then
        parts2 ++ ["\nUSER PREFERENCES:\n" ++ additional_context]
      else parts2
    else parts2
  let parts4 :=
    if !rag_context.isEmpty then
      parts3 ++ ["\nRELEVANT TRAVEL KNOWLEDGE:\n" ++ String.mk (rag_context.data.take 4000)]
    else parts3
  let parts5 :=
    match trip_context with
    | some trip_info => parts4 ++ ["\nCURRENT TRIP:\n" ++ trip_info]
    | none => parts4
  let parts6 := parts5 ++ [roleGuidelines]
  String.mk (joinSep "\n".data (parts6.map String.data))

/-- `ConversationService.process_message`.  Returns
`(ai_response, updated_context, updated_summary)`.  Python exceptions are the
`Except.error` branch; note that the summarization step (step 7) runs after
the reply is already in hand and is not guarded by any `try`, and that the
`should_summarize` call receives the literal `0` as `last_summarized_index`. -/
def process_message (o : Oracles) (user_message : String)
    (conversation_history : List Msg) (conversation_summary : Option String)
    (conversation_context : Option Ctx) (trip_context : Option String) :
    Except String (String × Ctx × Option String) := do
  let all_messages := conversation_history ++ [⟨"user", user_message⟩]
  let extracted ← extract_context all_messages
  let updated_context :=
    match conversation_context with
    | some cc => if ctxTruthy cc then mergeCtx cc extracted else extracted
    | none => extracted
  let rc := get_context_for_ai context_manager conversation_history conversation_summary
    updated_context
  let recent_messages := rc.1
  let context_description := rc.2
  let enhanced_query := enhance_query user_message updated_context
  let metadata_filter := create_contextual_filter updated_context
  let rag_results := search o retrieval_service_threshold enhanced_query 10 metadata_filter none
  let rag_documents := rag_results.documents.headD []
  let rag_context := String.mk (joinSep "\n\n".data (rag_documents.map String.data))
  let system_prompt := build_system_prompt rag_context context_description trip_context
    updated_context
  let messages := [(⟨"system", system_prompt⟩ : Msg)] ++ recent_messages
    ++ [(⟨"user", user_message⟩ : Msg)]
  let response ← o.chat messages OPENAI_TEMPERATURE OPENAI_MAX_TOKENS
  let updated_summary := conversation_summary
  let message_count : Int := conversation_history.length + 1
  if should_summarize context_manager message_count 0 then do
    let s ← create_summary o.chat context_manager all_messages conversation_summary
    pure (response, updated_context, some s)
  else
    pure (response, updated_context, updated_summary)

/-! ## Concrete scenario inputs and oracles used by the theorems -/

/-- The end-to-end scenario message of the specification. -/
def parisMessage : String :=
  "I want to visit Paris for 5 days with a $2000 budget, I love museums and food"

/-- The facts the extractor actually produces for `parisMessage`.  The
destination capture is "Paris For": under IGNORECASE the `[A-Z][a-z]+` parts
of the verb pattern also match the lowercase word "for" that follows
"Paris". -/
def parisFacts : Ctx :=
  ⟨some "Paris For", some 5, some 2000, some ["museums", "food"], some "budget"⟩

/-- A fourteen-message history (seven exchanged pairs), placing the next turn
at `message_count = 15`, exactly the summarization threshold. -/
def fourteenMessages : List Msg :=
  [⟨"user", "a"⟩, ⟨"assistant", "b"⟩, ⟨"user", "a"⟩, ⟨"assistant", "b"⟩,
   ⟨"user", "a"⟩, ⟨"assistant", "b"⟩, ⟨"user", "a"⟩, ⟨"assistant", "b"⟩,
   ⟨"user", "a"⟩, ⟨"assistant", "b"⟩, ⟨"user", "a"⟩, ⟨"assistant", "b"⟩,
   ⟨"user", "a"⟩, ⟨"assistant", "b"⟩]

/-- Oracles for a turn whose main reply succeeds but whose summarization call
fails.  The summary prompt is the only single-message chat request the turn
makes; the main completion request carries the system prompt, the window and
the user message. -/
def oracleSummaryFail : Oracles where
  chat := fun msgs _ _ =>
    if msgs.length == 1 then Except.error "LM down" else Except.ok "REPLY"
  embed := fun _ => Except.error "embedding service down"
  vquery := fun _ _ _ => Except.error "index down"

/-- Oracles for a turn where both the reply and the summarization succeed. -/
def oracleSummaryOk : Oracles where
  chat := fun msgs _ _ =>
    if msgs.length == 1 then Except.ok " SUMMARY " else Except.ok "REPLY"
  embed := fun _ => Except.error "embedding service down"
  vquery := fun _ _ _ => Except.error "index down"

/-- Oracles whose chat model always replies and whose retrieval side fails
(the degradation is caught inside `search`). -/
def oracleReplyOnly : Oracles where
  chat := fun _ _ _ => Except.ok "REPLY"
  embed := fun _ => Except.error "embedding service down"
  vquery := fun _ _ _ => Except.error "index down"

/-- An index oracle returning three fixed candidates with similarities
0.8, 0.1 and 0.7 (cosine distances 0.2, 0.9 and 0.3). -/
def oracleThreeCandidates : Oracles where
  chat := fun _ _ _ => Except.ok "REPLY"
  embed := fun _ => Except.ok [1]
  vquery := fun _ _ _ => Except.ok
    ⟨[["docA", "docB", "docC"]], [[[], [], []]], [[2/10, 9/10, 3/10]], [["a", "b", "c"]]⟩

/-! ## Helper lemmas -/

/-- Dropping to a valid index exposes that element, as `getD`, in front. -/
theorem drop_eq_getD_cons {α : Type} (dflt : α) :
    ∀ (l : List α) (i : Nat), i < l.length → l.drop i = l.getD i dflt :: l.drop (i + 1) := by
  intro l
  induction l with
  | nil => intro i h; simp at h
  | cons a tl ih =>
    intro i h
    cases i with
    | zero => simp
    | succ n =>
      simp only [List.drop_succ_cons, List.getD_cons_succ]
      exact ih n (by simp at h; omega)

/-- The interest loop output is a sublist of the table keys, in table order,
whatever the text says. -/
theorem interestsFrom_sublist (tbl : List (String × List String)) (text : List Char) :
    (interestsFrom tbl text).Sublist (tbl.map Prod.fst) := by
  induction tbl with
  | nil => simp [interestsFrom]
  | cons hd tl ih =>
    obtain ⟨interest, keywords⟩ := hd
    simp only [interestsFrom, List.map_cons]
    split
    · exact ih.cons₂ interest
    · exact ih.cons interest

/-- The keep-and-break loop of `_filter_by_similarity` equals
filter-then-truncate, on the documents and distances components, for aligned
lists and while fewer than `max_results` entries are kept. -/
theorem simLoop_spec (t : ℚ) (k : Nat) (docs : List String)
    (metas : List (List (String × String))) (ids : List String) :
    ∀ (ds : List ℚ) (i kept : Nat), i + ds.length ≤ docs.length → kept < k →
      (simLoop t k docs metas ids ds i kept).1 =
        ((((docs.drop i).zip ds).filter
            (fun p => decide (t ≤ distance_to_similarity p.2))).map Prod.fst).take (k - kept) ∧
      (simLoop t k docs metas ids ds i kept).2.2.1 =
        ((((docs.drop i).zip ds).filter
            (fun p => decide (t ≤ distance_to_similarity p.2))).map Prod.snd).take (k - kept) := by
  intro ds
  induction ds with
  | nil =>
    intro i kept _ _
    simp [simLoop]
  | cons d rest ih =>
    intro i kept hlen hkept
    have hi : i < docs.length := by
      simp only [List.length_cons] at hlen; omega
    have hdrop := drop_eq_getD_cons "" docs i hi
    by_cases hsim : t ≤ distance_to_similarity d
    · by_cases hbreak : k ≤ kept + 1
      · have hk1 : k - kept = 1 := by omega
        rw [hdrop]
        simp [simLoop, hsim, hbreak, hk1, List.zip_cons_cons, List.filter_cons]
      · have hstep := ih (i + 1) (kept + 1)
          (by simp only [List.length_cons] at hlen; omega) (by omega)
        have hk1 : k - kept = (k - (kept + 1)) + 1 := by omega
        rw [hdrop]
        simp [simLoop, hsim, hbreak, List.zip_cons_cons, List.filter_cons, hk1,
          List.take_succ_cons, hstep.1, hstep.2]
    · have hstep := ih (i + 1) kept
        (by simp only [List.length_cons] at hlen; omega) hkept
      rw [hdrop]
      simp [simLoop, hsim, List.zip_cons_cons, List.filter_cons, hstep.1, hstep.2]

/-- `_filter_by_similarity` on aligned singleton-wrapped results: the
documents and distances come out filtered by the similarity threshold, in
index order, truncated to `max_results`.  The candidate count is bounded by
the over-fetch `2 * max_results`, which settles the degenerate
`max_results = 0` case. -/
theorem filter_by_similarity_spec (docs : List String)
    (metas : List (List (String × String))) (ids : List String) (dists : List ℚ)
    (t : ℚ) (k : Nat) (hd : dists.length = docs.length) (hb : dists.length ≤ k * 2) :
    (filter_by_similarity ⟨[docs], [metas], [dists], [ids]⟩ t k).documents =
      [(((docs.zip dists).filter
          (fun p => decide (t ≤ distance_to_similarity p.2))).map Prod.fst).take k] ∧
    (filter_by_similarity ⟨[docs], [metas], [dists], [ids]⟩ t k).distances =
      [(((docs.zip dists).filter
          (fun p => decide (t ≤ distance_to_similarity p.2))).map Prod.snd).take k] := by
  by_cases hdocs : docs.isEmpty
  · have he : docs = [] := by
      cases docs with
      | nil => rfl
      | cons a l => simp at hdocs
    subst he
    simp [filter_by_similarity, canonicalEmpty]
  · rcases Nat.eq_zero_or_pos k with hk | hk
    · have hde : dists = [] := by
        subst hk
        simp only [Nat.zero_mul, Nat.le_zero] at hb
        exact List.eq_nil_of_length_eq_zero hb
      subst hde
      simp [filter_by_similarity, hdocs, simLoop, canonicalEmpty]
    · have hspec := simLoop_spec t k docs metas ids dists 0 0 (by omega) hk
      simp only [filter_by_similarity, List.isEmpty_cons, List.headD_cons, hdocs,
        Bool.false_eq_true, false_or, if_neg, Bool.or_self]
      simp [hdocs, hspec.1, hspec.2]

/-! ## Claim theorems -/

/-- C1, counterexample to the claim as stated: on the end-to-end scenario
message the extracted destination fact is "Paris For", not "Paris" — under
IGNORECASE the capture `[A-Z][a-z]+(?:\s+[A-Z][a-z]+)*` of the pattern
`(?:visit|visiting|visited)\s+...` also swallows the lowercase word "for"
after "Paris".  The remaining facts are as the claim says. -/
theorem paris_destination_counterexample :
    extract_context [⟨"user", parisMessage⟩] = Except.ok parisFacts ∧
    parisFacts.destination = some "Paris For" ∧
    (some "Paris For" : Option String) ≠ some "Paris" :=
  ⟨rfl, rfl, by decide⟩

/-- C1, amended: processing the scenario message from an empty conversation
yields merged facts with destination "Paris For", duration 5 days, budget
2000 and interests containing "museums" and "food"; the enhanced retrieval
query for the follow-up "What should I see?" under those facts is exactly
"What should I see in Paris For focusing on museums and food", which contains
both "in Paris" and "focusing on museums and food". -/
theorem paris_end_to_end_amended :
    process_message oracleReplyOnly parisMessage [] none (some emptyCtx) none
      = Except.ok ("REPLY", parisFacts, none) ∧
    parisFacts.destination = some "Paris For" ∧
    parisFacts.duration_days = some 5 ∧
    parisFacts.budget = some 2000 ∧
    ((parisFacts.interests.getD []).contains "museums" &&
      (parisFacts.interests.getD []).contains "food") = true ∧
    enhance_query "What should I see?" parisFacts
      = "What should I see in Paris For focusing on museums and food" ∧
    hasSubstr "in Paris".data
      (enhance_query "What should I see?" parisFacts).data = true ∧
    hasSubstr "focusing on museums and food".data
      (enhance_query "What should I see?" parisFacts).data = true :=
  ⟨rfl, rfl, rfl, rfl, by decide, rfl, by decide, by decide⟩

/-- C2: the claim says a summarization failure after the reply is obtained is
caught and the turn still returns the reply.  The code has no `try` around
the summary step: with a fourteen-message history (threshold reached) and
oracles whose main completion succeeds but whose summary call fails,
`process_message` propagates the error and the reply is lost. -/
theorem summary_failure_aborts_turn :
    process_message oracleSummaryFail "tell me" fourteenMessages (some "OLD")
        (some emptyCtx) none
      = Except.error "LM down" ∧
    oracleSummaryFail.chat
        [⟨"system", "s"⟩, ⟨"user", "tell me"⟩] OPENAI_TEMPERATURE OPENAI_MAX_TOKENS
      = Except.ok "REPLY" :=
  ⟨rfl, rfl⟩

/-- C3: the claim says the orchestrator passes the actual
`last_summarized_index` of the conversation to `should_summarize` and
advances it after success.
The code passes the literal `0` and never updates any index: for a
conversation whose `last_summarized_index` is 14 at `message_count = 15`,
`should_summarize 15 14` is false — yet the turn summarizes (the returned
summary is the fresh model output, not the prior "OLD"). -/
theorem summarize_decision_ignores_index :
    should_summarize context_manager 15 14 = false ∧
    should_summarize context_manager 15 0 = true ∧
    process_message oracleSummaryOk "tell me" fourteenMessages (some "OLD")
        (some emptyCtx) none
      = Except.ok ("REPLY", emptyCtx, some "SUMMARY") :=
  ⟨rfl, rfl, rfl⟩

/-- C4: duration extraction returns 5 for "for 5 days", 14 for "2 weeks" and
nothing for "I need 5"; but on "a week trip" the matching pattern
`(?:for\s+)?a\s+week(?:\s+trip)?` has no capturing group, so
`match.lastindex` is `None` and the comparison `match.lastindex >= 1` raises
a `TypeError` instead of returning the intended 7. -/
theorem duration_extraction_evaluations :
    extract_duration "for 5 days".data = Except.ok (some 5) ∧
    extract_duration "a week trip".data = Except.error lastindexTypeError ∧
    extract_duration "2 weeks".data = Except.ok (some 14) ∧
    extract_duration "i need 5".data = Except.ok none :=
  ⟨rfl, rfl, rfl, rfl⟩

/-- C5: the claim says `extract` raises no exception on role/content message
lists with text content.  It does: the message "a week trip" is plain text,
yet extraction raises the duration `TypeError` of C4 (and no `InvalidInput`
condition exists anywhere in the code). -/
theorem extract_raises_on_text_content :
    extract_context [⟨"user", "a week trip"⟩] = Except.error lastindexTypeError :=
  rfl

/-- C6: for every query, requested count `k` and threshold `t`, `search`
requests `2 * k` candidates from the index, keeps — in index order — exactly
the candidates whose similarity `1 - distance` reaches `t`, truncated to the
first `k`; the result length is at most `k`. -/
theorem search_filters_and_truncates (o : Oracles) (q : String) (k : Nat) (t : ℚ)
    (filt : Option (List (String × String))) (emb : List ℚ)
    (docs : List String) (metas : List (List (String × String)))
    (ids : List String) (dists : List ℚ)
    (hembed : o.embed q = Except.ok emb)
    (hvq : o.vquery [emb] (k * 2) filt = Except.ok ⟨[docs], [metas], [dists], [ids]⟩)
    (hd : dists.length = docs.length) (hb : dists.length ≤ k * 2) :
    search o t q k filt none = filter_by_similarity ⟨[docs], [metas], [dists], [ids]⟩ t k ∧
    (search o t q k filt none).documents =
      [(((docs.zip dists).filter
          (fun p => decide (t ≤ distance_to_similarity p.2))).map Prod.fst).take k] ∧
    (search o t q k filt none).distances =
      [(((docs.zip dists).filter
          (fun p => decide (t ≤ distance_to_similarity p.2))).map Prod.snd).take k] ∧
    ((search o t q k filt none).documents.headD []).length ≤ k := by
  have h1 : search o t q k filt none
      = filter_by_similarity ⟨[docs], [metas], [dists], [ids]⟩ t k := by
    simp [search, hembed, hvq]
  have h2 := filter_by_similarity_spec docs metas ids dists t k hd hb
  refine ⟨h1, ?_, ?_, ?_⟩
  · rw [h1]; exact h2.1
  · rw [h1]; exact h2.2
  · rw [h1, h2.1]
    simp only [List.headD_cons, List.length_take]
    omega

/-- C6 witness: candidates with similarities 0.8, 0.1 and 0.7 at threshold
0.6 yield exactly the 0.8 and 0.7 candidates, in that order. -/
theorem search_filters_and_truncates_witness :
    ([(2 : ℚ)/10, 9/10, 3/10] : List ℚ).length
        = (["docA", "docB", "docC"] : List String).length ∧
    ([(2 : ℚ)/10, 9/10, 3/10] : List ℚ).length ≤ 5 * 2 ∧
    (search oracleThreeCandidates (6/10) "q" 5 none none).documents = [["docA", "docC"]] := by
  have h := search_filters_and_truncates oracleThreeCandidates "q" 5 (6/10) none [1]
    ["docA", "docB", "docC"] [[], [], []] ["a", "b", "c"] [2/10, 9/10, 3/10]
    rfl rfl rfl (by norm_num)
  refine ⟨rfl, by norm_num, h.2.1.trans ?_⟩
  norm_num [List.zip_cons_cons, List.filter_cons, distance_to_similarity]

/-- C7: when the embedding call or the vector-index call fails, `search`
catches the failure and returns the canonical empty result set. -/
theorem search_failure_yields_empty (o : Oracles) (selfT : ℚ) (q : String) (k : Nat)
    (filt : Option (List (String × String))) (ta : Option ℚ)
    (h : (∃ e, o.embed q = Except.error e) ∨
      (∃ emb e, o.embed q = Except.ok emb ∧
        o.vquery [emb] (k * 2) filt = Except.error e)) :
    search o selfT q k filt ta = canonicalEmpty := by
  rcases h with ⟨e, he⟩ | ⟨emb, e, hok, he⟩
  · simp [search, he]
  · simp [search, hok, he]

/-- C7 witness: a failing embedding service makes the conversation-turn
search come back empty instead of raising. -/
theorem search_failure_yields_empty_witness :
    oracleReplyOnly.embed "anything" = Except.error "embedding service down" ∧
    search oracleReplyOnly RAG_SIMILARITY_THRESHOLD "anything" 10 none none
      = canonicalEmpty :=
  ⟨rfl, search_failure_yields_empty _ _ _ _ _ _ (Or.inl ⟨_, rfl⟩)⟩

/-- C8, counterexample to the claim as stated: with `window_size = 0` the
Python slice `messages[-0:]` is `messages[0:]`, the whole history, so a
one-message history yields 1 message, not `min 1 0 = 0`. -/
theorem select_window_zero_counterexample :
    ((get_context_for_ai ⟨0, 15⟩ [⟨"user", "hi"⟩] none emptyCtx).1).length ≠
      min ([(⟨"user", "hi"⟩ : Msg)] : List Msg).length 0 := by
  decide

/-- C8, amended: for every `window_size ≥ 1`, window selection returns
exactly `min L window_size` messages and they are a suffix of the history —
the most recent messages in their original order. -/
theorem select_window_spec (cm : ContextManager) (messages : List Msg)
    (summary : Option String) (context : Ctx) (hw : 1 ≤ cm.window_size) :
    ((get_context_for_ai cm messages summary context).1).length
        = min messages.length cm.window_size ∧
    (get_context_for_ai cm messages summary context).1 <:+ messages := by
  have hz : ¬ cm.window_size = 0 := by omega
  have h1 : (get_context_for_ai cm messages summary context).1
      = messages.drop (messages.length - cm.window_size) := by
    simp [get_context_for_ai, pyLastSlice, hz]
  constructor
  · rw [h1, List.length_drop]
    rcases Nat.le_total messages.length cm.window_size with h | h
    · rw [min_eq_left h]; omega
    · rw [min_eq_right h]; omega
  · rw [h1]
    exact List.drop_suffix _ _

/-- C8 witness: the deployed manager (window 10) on a two-message history. -/
theorem select_window_spec_witness :
    1 ≤ context_manager.window_size ∧
    ((get_context_for_ai context_manager [⟨"user", "hi"⟩, ⟨"assistant", "yo"⟩]
        none emptyCtx).1).length
      = min ([(⟨"user", "hi"⟩ : Msg), ⟨"assistant", "yo"⟩] : List Msg).length
          context_manager.window_size :=
  ⟨by decide,
    (select_window_spec context_manager [⟨"user", "hi"⟩, ⟨"assistant", "yo"⟩]
      none emptyCtx (by decide)).1⟩

/-- C9: interest extraction always lists the matched categories in the fixed
declaration order — museums, food, history, nature, nightlife, shopping,
culture, adventure, relaxation, architecture — independent of mention order
("i love food and also museums" still gives museums first), and the clause
`enhance_query` appends uses the first two categories in that fixed order. -/
theorem interests_fixed_declaration_order :
    interest_keywords.map Prod.fst
      = ["museums", "food", "history", "nature", "nightlife", "shopping",
         "culture", "adventure", "relaxation", "architecture"] ∧
    (∀ text : List Char,
      (extract_interests text).Sublist (interest_keywords.map Prod.fst)) ∧
    extract_interests "i love food and also museums".data = ["museums", "food"] ∧
    enhance_query "what should i do" ⟨none, none, none, some ["museums", "food"], none⟩
      = "what should i do focusing on museums and food" :=
  ⟨rfl, fun text => interestsFrom_sublist interest_keywords text, rfl, rfl⟩

/-- C10: any lowercase user text containing "budget" — including a purely
monetary phrase such as "my budget is $2000" — makes travel-style
extraction return "budget", and through `extract_context` a message stating
only a budget amount with the word "budget" also sets the travel_style
fact. -/
theorem budget_word_gives_budget_style :
    (∀ text : List Char, hasSubstr "budget".data text = true →
      extract_travel_style text = some "budget") ∧
    extract_context [⟨"user", "my budget is $2000"⟩]
      = Except.ok ⟨none, none, some 2000, none, some "budget"⟩ := by
  constructor
  · intro text h
    simp only [extract_travel_style, List.any_cons, h, Bool.true_or, if_pos]
  · rfl

/-- C10 witness: the universal part applied to "my budget is $2000". -/
theorem budget_word_gives_budget_style_witness :
    hasSubstr "budget".data "my budget is $2000".data = true ∧
    extract_travel_style "my budget is $2000".data = some "budget" :=
  ⟨by decide, budget_word_gives_budget_style.1 "my budget is $2000".data (by decide)⟩

end TravelPlanner
